import Mathlib

/-!
Shallow embedding of the Window bootstrap component of the repository
(src/window/Window.h, src/window/Window.cpp).

The windowing provider (GLFW) and the rendering API (Vulkan) are external
collaborators.  Their behaviour at each call site is modelled by a
`Provider` record of call outcomes, and every collaborator call made by
the embedded code is recorded in an event trace (`ECall`), so that
ordering claims ("surface is destroyed before the instance", "the
provider is terminated exactly once") become statements about the trace.
Formatted log lines are modelled structurally by `LogMsg`, keeping the
data that the source interpolates into the format string.
-/

/-- GLFW constant: `GLFW_RESIZABLE` (0x00020003). -/
def GLFW_RESIZABLE : Int := 131075

/-- GLFW constant: `GLFW_FALSE`. -/
def GLFW_FALSE : Int := 0

/-- GLFW constant: `GLFW_CLIENT_API` (0x00022001). -/
def GLFW_CLIENT_API : Int := 139265

/-- GLFW constant: `GLFW_NO_API`. -/
def GLFW_NO_API : Int := 0

/-- GLFW constant: `GLFW_RELEASE`. -/
def GLFW_RELEASE : Int := 0

/-- GLFW constant: `GLFW_PRESS`. -/
def GLFW_PRESS : Int := 1

/-- GLFW constant: `GLFW_REPEAT`. -/
def GLFW_REPEAT : Int := 2

/-- GLFW constant: `GLFW_MOUSE_BUTTON_LEFT` (= `GLFW_MOUSE_BUTTON_1`). -/
def GLFW_MOUSE_BUTTON_LEFT : Int := 0

/-- GLFW constant: `GLFW_MOUSE_BUTTON_RIGHT` (= `GLFW_MOUSE_BUTTON_2`). -/
def GLFW_MOUSE_BUTTON_RIGHT : Int := 1

/-- GLFW constant: `GLFW_MOUSE_BUTTON_MIDDLE` (= `GLFW_MOUSE_BUTTON_3`). -/
def GLFW_MOUSE_BUTTON_MIDDLE : Int := 2

/-- Vulkan constant: `VK_SUCCESS`. -/
def VK_SUCCESS : Int := 0

/-- Vulkan constant: `VK_KHR_PORTABILITY_ENUMERATION_EXTENSION_NAME`. -/
def VK_KHR_PORTABILITY_ENUMERATION_EXTENSION_NAME : String :=
  "VK_KHR_portability_enumeration"

/-- The log lines emitted through `Logger::log` by `Window.cpp`, modelled
structurally: each constructor is one format string of the source, carrying
the data interpolated into it. -/
inductive LogMsg where
  | glfwInitError
  | vulkanNotSupported
  | couldNotCreateWindow
  | couldNotInitVulkan
  | windowInitialized
  | windowCloseEvent
  | noVulkanExtensions
  | foundExtensions (count : Nat)
  | extensionName (name : String)
  | couldNotCreateInstance (code : Int)
  | noCapableGpu
  | foundPhysicalDevices (count : Nat)
  | couldNotCreateSurface
  | terminatingWindow
  | keyEvent (keyName : Option String) (key scancode : Int) (actionName : String)
  | mouseButtonEvent (buttonName : String) (button : Int) (actionName : String)
deriving DecidableEq, Repr

/-- One collaborator call made by the embedded code: a GLFW call, a Vulkan
call, or a line handed to the logging sink. -/
inductive ECall where
  | glfwInit
  | glfwVulkanSupported
  | glfwTerminate
  | glfwWindowHint (hint value : Int)
  | glfwCreateWindow (width height : Nat) (title : String)
  | glfwSetWindowUserPointer
  | glfwSetWindowCloseCallback
  | glfwSetKeyCallback
  | glfwSetMouseButtonCallback
  | glfwGetRequiredInstanceExtensions
  | vkCreateInstance (appName : String) (extensions : List String) (portabilityFlag : Bool)
  | vkEnumeratePhysicalDevices
  | glfwCreateWindowSurface
  | vkDestroySurfaceKHR (inst surf : Nat)
  | vkDestroyInstance (inst : Nat)
  | glfwDestroyWindow (window : Option Nat)
  | glfwWindowShouldClose
  | glfwPollEvents
  | glfwGetKeyName (key : Int)
  | log (msg : LogMsg)
deriving DecidableEq, Repr

/-- Outcomes of the external collaborator calls (GLFW and Vulkan) as seen
by the embedded code.  Handles are modelled as naturals; a `GLFWwindow*`
result is `Option Nat` with `none` for the null pointer; a `VkResult` is an
`Int` with `VK_SUCCESS = 0`. -/
structure Provider where
  glfwInitOk : Bool
  vulkanSupported : Bool
  createWindowResult : Option Nat
  requiredExtensions : List String
  createInstanceResult : Int
  instanceHandle : Nat
  physicalDeviceCount : Nat
  createSurfaceResult : Int
  surfaceHandle : Nat
  getKeyName : Int → Int → Option String

/-- The state of the `Window` class (src/window/Window.h, lines 15-21):
`mWindow` is a `GLFWwindow*` defaulting to `nullptr`, `mApplicationName`
an initially empty string, `mInstance` and `mSurface` zero-initialized
Vulkan handles. -/
structure Window where
  mWindow : Option Nat := none
  mApplicationName : String := ""
  mInstance : Nat := 0
  mSurface : Nat := 0
deriving DecidableEq, Repr

/-- The `action` switch of `Window::handleKeyEvents`
(src/window/Window.cpp, lines 158-172). -/
def keyActionName (action : Int) : String :=
  if action = GLFW_PRESS then "pressed"
  else if action = GLFW_RELEASE then "released"
  else if action = GLFW_REPEAT then "repeated"
  else "unknown"

/-- The `action` switch of `Window::handleMouseButtonEvents`
(src/window/Window.cpp, lines 180-191). -/
def mouseActionName (action : Int) : String :=
  if action = GLFW_PRESS then "pressed"
  else if action = GLFW_RELEASE then "released"
  else "unknown"

/-- The `button` switch of `Window::handleMouseButtonEvents`
(src/window/Window.cpp, lines 193-207). -/
def mouseButtonName (button : Int) : String :=
  if button = GLFW_MOUSE_BUTTON_LEFT then "left"
  else if button = GLFW_MOUSE_BUTTON_MIDDLE then "middle"
  else if button = GLFW_MOUSE_BUTTON_RIGHT then "right"
  else "unknown"

/-- `Window::handleWindowCloseEvents` (src/window/Window.cpp, lines 63-66):
logs one line.  The handler receives and returns the session state and the
provider close flag to make explicit that it touches neither. -/
def Window.handleWindowCloseEvents (s : Window) (closeFlag : Bool) :
    Window × Bool × List ECall :=
  (s, closeFlag, [ECall.log LogMsg.windowCloseEvent])

/-- `Window::handleKeyEvents` (src/window/Window.cpp, lines 157-177):
queries `glfwGetKeyName(key, 0)` and logs one line carrying the raw
(possibly null) key name, the key, the scancode and the action name. -/
def Window.handleKeyEvents (p : Provider) (s : Window) (closeFlag : Bool)
    (key scancode action mods : Int) : Window × Bool × List ECall :=
  (s, closeFlag,
   [ECall.glfwGetKeyName key,
    ECall.log (LogMsg.keyEvent (p.getKeyName key 0) key scancode (keyActionName action))])

/-- `Window::handleMouseButtonEvents` (src/window/Window.cpp, lines
179-211): logs one line with the button name, button code and action
name. -/
def Window.handleMouseButtonEvents (s : Window) (closeFlag : Bool)
    (button action mods : Int) : Window × Bool × List ECall :=
  (s, closeFlag,
   [ECall.log (LogMsg.mouseButtonEvent (mouseButtonName button) button (mouseActionName action))])

/-- `Window::initVulkan` (src/window/Window.cpp, lines 68-138).  Returns
the C++ boolean result, the updated state and the collaborator-call
trace. -/
def Window.initVulkan (p : Provider) (s : Window) : Bool × Window × List ECall :=
  let extensions := p.requiredExtensions
  if extensions.length = 0 then
    (false, s,
     [ECall.glfwGetRequiredInstanceExtensions, ECall.log LogMsg.noVulkanExtensions])
  else
    let requiredExtensions := extensions ++ [VK_KHR_PORTABILITY_ENUMERATION_EXTENSION_NAME]
    let t1 : List ECall :=
      ECall.glfwGetRequiredInstanceExtensions ::
      ECall.log (LogMsg.foundExtensions extensions.length) ::
      extensions.map (fun e => ECall.log (LogMsg.extensionName e))
    if p.createInstanceResult ≠ VK_SUCCESS then
      (false, s,
       t1 ++ [ECall.vkCreateInstance s.mApplicationName requiredExtensions true,
              ECall.log (LogMsg.couldNotCreateInstance p.createInstanceResult)])
    else
      let s1 := { s with mInstance := p.instanceHandle }
      let t2 := t1 ++ [ECall.vkCreateInstance s.mApplicationName requiredExtensions true,
                       ECall.vkEnumeratePhysicalDevices]
      if p.physicalDeviceCount = 0 then
        (false, s1, t2 ++ [ECall.log LogMsg.noCapableGpu])
      else
        let t3 := t2 ++ [ECall.vkEnumeratePhysicalDevices,
                         ECall.log (LogMsg.foundPhysicalDevices p.physicalDeviceCount)]
        if p.createSurfaceResult ≠ VK_SUCCESS then
          (false, s1, t3 ++ [ECall.glfwCreateWindowSurface, ECall.log LogMsg.couldNotCreateSurface])
        else
          (true, { s1 with mSurface := p.surfaceHandle },
           t3 ++ [ECall.glfwCreateWindowSurface])

/-- `Window::init` (src/window/Window.cpp, lines 6-61).  Returns the C++
boolean result, the updated state and the collaborator-call trace. -/
def Window.init (p : Provider) (s : Window) (width height : Nat) (title : String) :
    Bool × Window × List ECall :=
  if !p.glfwInitOk then
    (false, s, [ECall.glfwInit, ECall.log LogMsg.glfwInitError])
  else if !p.vulkanSupported then
    (false, s,
     [ECall.glfwInit, ECall.glfwVulkanSupported, ECall.glfwTerminate,
      ECall.log LogMsg.vulkanNotSupported])
  else
    let pre : List ECall :=
      [ECall.glfwInit, ECall.glfwVulkanSupported,
       ECall.glfwWindowHint GLFW_RESIZABLE GLFW_FALSE,
       ECall.glfwWindowHint GLFW_CLIENT_API GLFW_NO_API,
       ECall.glfwCreateWindow width height title]
    match p.createWindowResult with
    | none =>
      (false, { s with mApplicationName := title, mWindow := none },
       pre ++ [ECall.log LogMsg.couldNotCreateWindow, ECall.glfwTerminate])
    | some w =>
      let s2 : Window := { s with mApplicationName := title, mWindow := some w }
      let r := Window.initVulkan p s2
      if !r.1 then
        (false, r.2.1,
         pre ++ r.2.2 ++ [ECall.log LogMsg.couldNotInitVulkan, ECall.glfwTerminate])
      else
        (true, r.2.1,
         pre ++ r.2.2 ++
         [ECall.glfwSetWindowUserPointer, ECall.glfwSetWindowCloseCallback,
          ECall.glfwSetKeyCallback, ECall.glfwSetMouseButtonCallback,
          ECall.log LogMsg.windowInitialized])

/-- `Window::cleanup` (src/window/Window.cpp, lines 147-155): log, destroy
surface, destroy instance, destroy window, terminate the provider.  The
C++ method does not reset the fields, so the state is returned
unchanged. -/
def Window.cleanup (s : Window) : Window × List ECall :=
  (s,
   [ECall.log LogMsg.terminatingWindow,
    ECall.vkDestroySurfaceKHR s.mInstance s.mSurface,
    ECall.vkDestroyInstance s.mInstance,
    ECall.glfwDestroyWindow s.mWindow,
    ECall.glfwTerminate])

/-- A raw input/window event delivered by the provider during
`glfwPollEvents`, dispatched to the callbacks registered in `init`
(src/window/Window.cpp, lines 41-57). -/
inductive GEvent where
  | close
  | key (key scancode action mods : Int)
  | mouseButton (button action mods : Int)

/-- Dispatch of one provider-delivered event through the callback
registered for it (src/window/Window.cpp, lines 41-57): each callback
recovers the owning `Window` and invokes the matching handler. -/
def dispatchEvent (p : Provider) (s : Window) (closeFlag : Bool) :
    GEvent → Window × Bool × List ECall
  | GEvent.close => Window.handleWindowCloseEvents s closeFlag
  | GEvent.key k sc a m => Window.handleKeyEvents p s closeFlag k sc a m
  | GEvent.mouseButton b a m => Window.handleMouseButtonEvents s closeFlag b a m

/-- Synchronous, in-order dispatch of the events pending at one
`glfwPollEvents` call, threading the session state and the provider close
flag through the handlers. -/
def dispatchEvents (p : Provider) (s : Window) (closeFlag : Bool) :
    List GEvent → Window × Bool × List ECall
  | [] => (s, closeFlag, [])
  | e :: es =>
    let r1 := dispatchEvent p s closeFlag e
    let r2 := dispatchEvents p r1.1 r1.2.1 es
    (r2.1, r2.2.1, r1.2.2 ++ r2.2.2)

/-- The collaborator calls made while dispatching one event (derived
characterization of `dispatchEvent`, proved equal to it below). -/
def eventCalls (p : Provider) : GEvent → List ECall
  | GEvent.close => [ECall.log LogMsg.windowCloseEvent]
  | GEvent.key k sc a _ =>
    [ECall.glfwGetKeyName k,
     ECall.log (LogMsg.keyEvent (p.getKeyName k 0) k sc (keyActionName a))]
  | GEvent.mouseButton b a _ =>
    [ECall.log (LogMsg.mouseButtonEvent (mouseButtonName b) b (mouseActionName a))]

/-- The collaborator calls made while dispatching a list of pending
events in order. -/
def eventsTrace (p : Provider) : List GEvent → List ECall
  | [] => []
  | e :: es => eventCalls p e ++ eventsTrace p es

/-- The provider-maintained close flag as observed at the k-th
`glfwWindowShouldClose` check of `mainLoop`: its initial value `f0`, or-ed
with `sets j` for every completed poll `j < k` (`sets j` says whether the
provider set the flag during poll number `j`).  The handlers themselves
never set the flag, which `mainLoop` makes explicit by threading it. -/
def closeFlagAt (f0 : Bool) (sets : Nat → Bool) (k : Nat) : Bool :=
  f0 || (List.range k).any sets

/-- `Window::mainLoop` (src/window/Window.cpp, lines 140-145), with
explicit fuel bounding the number of `glfwWindowShouldClose` checks:
`while (!glfwWindowShouldClose(mWindow)) { glfwPollEvents(); }`.
`events k` are the events pending at poll number `k`; `sets k` tells
whether the provider sets the close flag during poll number `k`.  Returns
`none` when the fuel runs out before the loop exits, otherwise the final
state and the collaborator-call trace. -/
def Window.mainLoop (p : Provider) (sets : Nat → Bool) (events : Nat → List GEvent) :
    Nat → Window → Bool → Nat → Option (Window × List ECall)
  | 0, _, _, _ => none
  | fuel + 1, s, flag, k =>
    if flag then
      some (s, [ECall.glfwWindowShouldClose])
    else
      let r := dispatchEvents p s flag (events k)
      match Window.mainLoop p sets events fuel r.1 (r.2.1 || sets k) (k + 1) with
      | none => none
      | some (s2, t2) =>
        some (s2, ECall.glfwWindowShouldClose :: ECall.glfwPollEvents :: (r.2.2 ++ t2))

/-- A provider on which every call succeeds: one window handle, one
required surface extension, one physical device. -/
def pOk : Provider where
  glfwInitOk := true
  vulkanSupported := true
  createWindowResult := some 1
  requiredExtensions := ["VK_KHR_surface"]
  createInstanceResult := 0
  instanceHandle := 5
  physicalDeviceCount := 1
  createSurfaceResult := 0
  surfaceHandle := 9
  getKeyName := fun _ _ => none

/-- `pOk` except that process-wide provider initialization fails. -/
def pNoInit : Provider := { pOk with glfwInitOk := false }

/-- `pOk` except that the provider reports Vulkan as unsupported. -/
def pNoVulkan : Provider := { pOk with vulkanSupported := false }

/-- `pOk` except that the provider reports zero required instance
extensions. -/
def pNoExt : Provider := { pOk with requiredExtensions := [] }

/-- `pOk` except that instance creation fails with a nonzero result
code. -/
def pInstFail : Provider := { pOk with createInstanceResult := -1 }

/-- `pOk` except that surface creation fails with a nonzero result
code. -/
def pSurfFail : Provider := { pOk with createSurfaceResult := -1 }

/-- `pOk` except that zero physical devices are enumerated. -/
def pZeroDev : Provider := { pOk with physicalDeviceCount := 0 }

/-- Claim C3: `cleanup`, invoked after a successful `init`, performs exactly
the sequence destroy surface, then destroy instance, then destroy window,
then shut down the provider, in that exact order of collaborator calls (the
method logs one line before the destruction sequence). -/
theorem cleanup_reverse_order (p : Provider) (s0 : Window) (wd ht : Nat) (t : String)
    (hs : (Window.init p s0 wd ht t).1 = true) :
    (Window.cleanup (Window.init p s0 wd ht t).2.1).2 =
      [ECall.log LogMsg.terminatingWindow,
       ECall.vkDestroySurfaceKHR (Window.init p s0 wd ht t).2.1.mInstance
         (Window.init p s0 wd ht t).2.1.mSurface,
       ECall.vkDestroyInstance (Window.init p s0 wd ht t).2.1.mInstance,
       ECall.glfwDestroyWindow (Window.init p s0 wd ht t).2.1.mWindow,
       ECall.glfwTerminate] := rfl

/-- Witness for C3: on the all-successful provider `pOk`, `init` succeeds
and the subsequent `cleanup` trace is surface, instance, window, provider,
in order. -/
theorem cleanup_reverse_order_witness :
    (Window.init pOk {} 800 600 "app").1 = true ∧
    (Window.cleanup (Window.init pOk {} 800 600 "app").2.1).2 =
      [ECall.log LogMsg.terminatingWindow,
       ECall.vkDestroySurfaceKHR 5 9,
       ECall.vkDestroyInstance 5,
       ECall.glfwDestroyWindow (some 1),
       ECall.glfwTerminate] :=
  ⟨rfl, cleanup_reverse_order pOk {} 800 600 "app" rfl⟩

/-- Claim C4: if the provider reports zero required instance extensions,
`initVulkan` returns failure, makes no `vkCreateInstance` and no
`glfwCreateWindowSurface` call, and leaves the instance and surface
handles unchanged. -/
theorem initVulkan_no_extensions_fails (p : Provider) (s : Window)
    (h : p.requiredExtensions = []) :
    Window.initVulkan p s =
      (false, s, [ECall.glfwGetRequiredInstanceExtensions, ECall.log LogMsg.noVulkanExtensions]) ∧
    (∀ a exts b, ECall.vkCreateInstance a exts b ∉ (Window.initVulkan p s).2.2) ∧
    ECall.glfwCreateWindowSurface ∉ (Window.initVulkan p s).2.2 ∧
    (Window.initVulkan p s).2.1.mInstance = s.mInstance ∧
    (Window.initVulkan p s).2.1.mSurface = s.mSurface := by
  refine ⟨?_, ?_, ?_, ?_, ?_⟩ <;> simp [Window.initVulkan, h]

/-- Witness for C4 at the concrete provider `pNoExt` reporting zero
required extensions. -/
theorem initVulkan_no_extensions_fails_witness :
    pNoExt.requiredExtensions = [] ∧
    (Window.initVulkan pNoExt {} =
      (false, {}, [ECall.glfwGetRequiredInstanceExtensions, ECall.log LogMsg.noVulkanExtensions]) ∧
    (∀ a exts b, ECall.vkCreateInstance a exts b ∉ (Window.initVulkan pNoExt {}).2.2) ∧
    ECall.glfwCreateWindowSurface ∉ (Window.initVulkan pNoExt {}).2.2 ∧
    (Window.initVulkan pNoExt {}).2.1.mInstance = ({} : Window).mInstance ∧
    (Window.initVulkan pNoExt {}).2.1.mSurface = ({} : Window).mSurface) :=
  ⟨rfl, initVulkan_no_extensions_fails pNoExt {} rfl⟩

/-- Claim C5: if the provider reports the rendering API as unsupported,
`init` returns failure; the trace holds exactly one provider-shutdown call
and no window-creation call at all. -/
theorem init_unsupported_terminates_once_before_window (p : Provider) (s : Window)
    (wd ht : Nat) (t : String) (h1 : p.glfwInitOk = true)
    (h2 : p.vulkanSupported = false) :
    Window.init p s wd ht t =
      (false, s,
       [ECall.glfwInit, ECall.glfwVulkanSupported, ECall.glfwTerminate,
        ECall.log LogMsg.vulkanNotSupported]) ∧
    (Window.init p s wd ht t).2.2.count ECall.glfwTerminate = 1 ∧
    (∀ w2 h3 t2, ECall.glfwCreateWindow w2 h3 t2 ∉ (Window.init p s wd ht t).2.2) := by
  have htr : Window.init p s wd ht t =
      (false, s,
       [ECall.glfwInit, ECall.glfwVulkanSupported, ECall.glfwTerminate,
        ECall.log LogMsg.vulkanNotSupported]) := by
    simp [Window.init, h1, h2]
  refine ⟨htr, ?_, ?_⟩
  · rw [htr]
    show ([ECall.glfwInit, ECall.glfwVulkanSupported, ECall.glfwTerminate,
           ECall.log LogMsg.vulkanNotSupported]).count ECall.glfwTerminate = 1
    decide
  · intro w2 h3 t2; rw [htr]; simp

/-- Witness for C5 at the concrete provider `pNoVulkan`. -/
theorem init_unsupported_terminates_once_before_window_witness :
    pNoVulkan.glfwInitOk = true ∧ pNoVulkan.vulkanSupported = false ∧
    (Window.init pNoVulkan {} 800 600 "app" =
      (false, {},
       [ECall.glfwInit, ECall.glfwVulkanSupported, ECall.glfwTerminate,
        ECall.log LogMsg.vulkanNotSupported]) ∧
    (Window.init pNoVulkan {} 800 600 "app").2.2.count ECall.glfwTerminate = 1 ∧
    (∀ w2 h3 t2, ECall.glfwCreateWindow w2 h3 t2 ∉ (Window.init pNoVulkan {} 800 600 "app").2.2)) :=
  ⟨rfl, rfl, init_unsupported_terminates_once_before_window pNoVulkan {} 800 600 "app" rfl rfl⟩

/-- Claim C6: a key event whose action value is none of press, release,
repeat is logged with action-name unknown, and a mouse-button event whose
button value is none of left, middle, right is logged with button-name
unknown; neither handler fails on unrecognized values. -/
theorem handlers_unknown_labels (p : Provider) (s : Window) (c : Bool)
    (key scancode action mods button action2 mods2 : Int)
    (ha1 : action ≠ GLFW_PRESS) (ha2 : action ≠ GLFW_RELEASE) (ha3 : action ≠ GLFW_REPEAT)
    (hb1 : button ≠ GLFW_MOUSE_BUTTON_LEFT) (hb2 : button ≠ GLFW_MOUSE_BUTTON_MIDDLE)
    (hb3 : button ≠ GLFW_MOUSE_BUTTON_RIGHT) :
    (Window.handleKeyEvents p s c key scancode action mods).2.2 =
      [ECall.glfwGetKeyName key,
       ECall.log (LogMsg.keyEvent (p.getKeyName key 0) key scancode "unknown")] ∧
    (Window.handleMouseButtonEvents s c button action2 mods2).2.2 =
      [ECall.log (LogMsg.mouseButtonEvent "unknown" button (mouseActionName action2))] := by
  constructor <;>
    simp [Window.handleKeyEvents, Window.handleMouseButtonEvents,
      keyActionName, mouseButtonName, ha1, ha2, ha3, hb1, hb2, hb3]

/-- Witness for C6: action value 7 and button value 9 are unrecognized and
both log the unknown label. -/
theorem handlers_unknown_labels_witness :
    ((7 : Int) ≠ GLFW_PRESS ∧ (9 : Int) ≠ GLFW_MOUSE_BUTTON_LEFT) ∧
    (Window.handleKeyEvents pOk {} false 65 30 7 0).2.2 =
      [ECall.glfwGetKeyName 65,
       ECall.log (LogMsg.keyEvent (pOk.getKeyName 65 0) 65 30 "unknown")] ∧
    (Window.handleMouseButtonEvents {} false 9 1 0).2.2 =
      [ECall.log (LogMsg.mouseButtonEvent "unknown" 9 (mouseActionName 1))] :=
  ⟨⟨by decide, by decide⟩,
   handlers_unknown_labels pOk {} false 65 30 7 0 9 1 0
     (by decide) (by decide) (by decide) (by decide) (by decide) (by decide)⟩

/-- Claim C8: each of the three event handlers returns the session state
and the provider close flag unchanged and only emits its log line (the key
handler additionally performs the read-only key-name query). -/
theorem handlers_no_mutation (p : Provider) (s : Window) (c : Bool)
    (key scancode action mods button action2 mods2 : Int) :
    Window.handleWindowCloseEvents s c = (s, c, [ECall.log LogMsg.windowCloseEvent]) ∧
    Window.handleKeyEvents p s c key scancode action mods =
      (s, c, [ECall.glfwGetKeyName key,
              ECall.log (LogMsg.keyEvent (p.getKeyName key 0) key scancode (keyActionName action))]) ∧
    Window.handleMouseButtonEvents s c button action2 mods2 =
      (s, c, [ECall.log (LogMsg.mouseButtonEvent (mouseButtonName button) button (mouseActionName action2))]) :=
  ⟨rfl, rfl, rfl⟩

/-- Claim C9: if provider initialization fails or the rendering API is
unsupported, `init` returns failure with the session state unchanged, so
from a default-constructed session every field keeps its default value and
the title argument is not stored. -/
theorem init_early_failure_state_unchanged (p : Provider) (s : Window)
    (wd ht : Nat) (t : String)
    (h : p.glfwInitOk = false ∨ p.vulkanSupported = false) :
    (Window.init p s wd ht t).1 = false ∧ (Window.init p s wd ht t).2.1 = s := by
  rcases h with h | h
  · constructor <;> simp [Window.init, h]
  · cases hg : p.glfwInitOk <;> constructor <;> simp [Window.init, hg, h]

/-- Witness for C9 at the concrete provider `pNoInit` on the
default-constructed session. -/
theorem init_early_failure_state_unchanged_witness :
    (pNoInit.glfwInitOk = false ∨ pNoInit.vulkanSupported = false) ∧
    ((Window.init pNoInit {} 800 600 "app").1 = false ∧
     (Window.init pNoInit {} 800 600 "app").2.1 = {}) :=
  ⟨Or.inl rfl, init_early_failure_state_unchanged pNoInit {} 800 600 "app" (Or.inl rfl)⟩

/-- Claim C10: `handleKeyEvents` logs the key name exactly as returned by
the provider key-name lookup; when the provider reports no name, the
logged key-name field is the absent result, not the unknown label, while
only the action field goes through the unknown fallback. -/
theorem handleKeyEvents_null_key_name (p : Provider) (s : Window) (c : Bool)
    (key scancode action mods : Int) (h : p.getKeyName key 0 = none) :
    (Window.handleKeyEvents p s c key scancode action mods).2.2 =
      [ECall.glfwGetKeyName key,
       ECall.log (LogMsg.keyEvent none key scancode (keyActionName action))] := by
  simp [Window.handleKeyEvents, h]

/-- Witness for C10: `pOk` reports no name for key 65; the logged key-name
field is the absent result while the action name is computed normally. -/
theorem handleKeyEvents_null_key_name_witness :
    pOk.getKeyName 65 0 = none ∧
    (Window.handleKeyEvents pOk {} false 65 30 1 0).2.2 =
      [ECall.glfwGetKeyName 65,
       ECall.log (LogMsg.keyEvent none 65 30 "pressed")] :=
  ⟨rfl, handleKeyEvents_null_key_name pOk {} false 65 30 1 0 rfl⟩

/-- Counterexample to C1 as stated: on a provider where everything
succeeds except surface creation, `init` fails, yet the created window
handle and the created instance handle remain stored in the session, and
no `vkDestroyInstance` call is ever made — partially-constructed state is
left reachable and the acquired instance is not torn down. -/
theorem init_surface_failure_retains_handles :
    (Window.init pSurfFail {} 800 600 "app").1 = false ∧
    (Window.init pSurfFail {} 800 600 "app").2.1.mInstance = 5 ∧
    (Window.init pSurfFail {} 800 600 "app").2.1.mWindow = some 1 ∧
    (∀ i, ECall.vkDestroyInstance i ∉ (Window.init pSurfFail {} 800 600 "app").2.2) := by
  refine ⟨rfl, rfl, rfl, ?_⟩
  intro i
  simp [Window.init, Window.initVulkan, pSurfFail, pOk, VK_SUCCESS]

/-- Claim C1, amended: every failure path of `init` logs a diagnostic and
returns failure, and every failure path reached after a successful
provider initialization terminates the provider; however (see the
counterexample) a failure inside `initVulkan` after instance creation
does not destroy the created instance, and the window and instance
handles set before the failure remain stored in the session. -/
theorem init_failure_logs_and_terminates (p : Provider) (s : Window) (wd ht : Nat) (t : String)
    (hfail : (Window.init p s wd ht t).1 = false) :
    (∃ m, ECall.log m ∈ (Window.init p s wd ht t).2.2) ∧
    (p.glfwInitOk = true → ECall.glfwTerminate ∈ (Window.init p s wd ht t).2.2) := by
  cases hg : p.glfwInitOk with
  | false =>
    refine ⟨⟨LogMsg.glfwInitError, ?_⟩, fun habs => ?_⟩
    · simp [Window.init, hg]
    · simp at habs
  | true =>
    cases hv : p.vulkanSupported with
    | false =>
      refine ⟨⟨LogMsg.vulkanNotSupported, ?_⟩, fun _ => ?_⟩ <;> simp [Window.init, hg, hv]
    | true =>
      cases hw : p.createWindowResult with
      | none =>
        refine ⟨⟨LogMsg.couldNotCreateWindow, ?_⟩, fun _ => ?_⟩ <;>
          simp [Window.init, hg, hv, hw]
      | some w =>
        cases hvk : (Window.initVulkan p { s with mApplicationName := t, mWindow := some w }).1 with
        | false =>
          refine ⟨⟨LogMsg.couldNotInitVulkan, ?_⟩, fun _ => ?_⟩ <;>
            simp [Window.init, hg, hv, hw, hvk]
        | true =>
          exfalso
          rw [Window.init] at hfail
          simp [hg, hv, hw, hvk] at hfail

/-- Witness for the amended C1 at the concrete provider `pInstFail`, whose
instance creation fails: `init` fails, a diagnostic is logged, and the
provider is terminated. -/
theorem init_failure_logs_and_terminates_witness :
    (Window.init pInstFail {} 800 600 "app").1 = false ∧
    ((∃ m, ECall.log m ∈ (Window.init pInstFail {} 800 600 "app").2.2) ∧
     (pInstFail.glfwInitOk = true →
       ECall.glfwTerminate ∈ (Window.init pInstFail {} 800 600 "app").2.2)) :=
  ⟨rfl, init_failure_logs_and_terminates pInstFail {} 800 600 "app" rfl⟩

/-- Counterexample to C2 as stated: the physical-device enumeration step
does affect the success-or-failure result of `initVulkan`: on two
providers identical except for the enumerated device count, the zero-device
one fails while the one-device one succeeds. -/
theorem initVulkan_zero_devices_fails :
    (Window.initVulkan pZeroDev {}).1 = false ∧
    (Window.initVulkan pOk {}).1 = true ∧
    pZeroDev = { pOk with physicalDeviceCount := 0 } :=
  ⟨rfl, rfl, rfl⟩

/-- Claim C2, amended: the enumeration step logs the device count and
retains no device (only the instance and surface fields of the session are
ever written), but it does gate the result: after a successful instance
creation, zero enumerated devices make `initVulkan` fail with a
diagnostic, while with at least one device the result depends only on
surface creation. -/
theorem initVulkan_enumeration_logs_and_gates (p : Provider) (s : Window)
    (hext : p.requiredExtensions ≠ [])
    (hinst : p.createInstanceResult = VK_SUCCESS) :
    ((Window.initVulkan p s).2.1.mWindow = s.mWindow ∧
     (Window.initVulkan p s).2.1.mApplicationName = s.mApplicationName) ∧
    (p.physicalDeviceCount = 0 →
      (Window.initVulkan p s).1 = false ∧
      ECall.log LogMsg.noCapableGpu ∈ (Window.initVulkan p s).2.2) ∧
    (0 < p.physicalDeviceCount →
      ECall.log (LogMsg.foundPhysicalDevices p.physicalDeviceCount) ∈ (Window.initVulkan p s).2.2 ∧
      ((Window.initVulkan p s).1 = true ↔ p.createSurfaceResult = VK_SUCCESS)) := by
  have hlen : ¬ p.requiredExtensions.length = 0 := by
    simpa [List.length_eq_zero] using hext
  by_cases hd : p.physicalDeviceCount = 0
  · refine ⟨?_, fun _ => ?_, fun h0 => absurd hd (by omega)⟩ <;>
      simp [Window.initVulkan, hlen, hinst, hd]
  · by_cases hs2 : p.createSurfaceResult = VK_SUCCESS
    · refine ⟨?_, fun h0 => absurd h0 hd, fun _ => ?_⟩ <;>
        simp [Window.initVulkan, hlen, hinst, hd, hs2]
    · refine ⟨?_, fun h0 => absurd h0 hd, fun _ => ?_⟩ <;>
        simp [Window.initVulkan, hlen, hinst, hd, hs2]

/-- Witness for the amended C2 at the concrete provider `pOk` (one
required extension, successful instance creation, one device). -/
theorem initVulkan_enumeration_logs_and_gates_witness :
    pOk.requiredExtensions ≠ [] ∧ pOk.createInstanceResult = VK_SUCCESS ∧
    (((Window.initVulkan pOk {}).2.1.mWindow = ({} : Window).mWindow ∧
      (Window.initVulkan pOk {}).2.1.mApplicationName = ({} : Window).mApplicationName) ∧
     (pOk.physicalDeviceCount = 0 →
       (Window.initVulkan pOk {}).1 = false ∧
       ECall.log LogMsg.noCapableGpu ∈ (Window.initVulkan pOk {}).2.2) ∧
     (0 < pOk.physicalDeviceCount →
       ECall.log (LogMsg.foundPhysicalDevices pOk.physicalDeviceCount) ∈ (Window.initVulkan pOk {}).2.2 ∧
       ((Window.initVulkan pOk {}).1 = true ↔ pOk.createSurfaceResult = VK_SUCCESS))) :=
  ⟨by simp [pOk], rfl, initVulkan_enumeration_logs_and_gates pOk {} (by simp [pOk]) rfl⟩

/-- Dispatching one event through its registered callback leaves the
session state and the close flag unchanged and produces the calls
described by `eventCalls`. -/
theorem dispatchEvent_calls (p : Provider) (s : Window) (c : Bool) (e : GEvent) :
    dispatchEvent p s c e = (s, c, eventCalls p e) := by
  cases e <;> rfl

/-- Dispatching the pending events of one poll leaves the session state
and the close flag unchanged and produces the concatenated per-event
calls. -/
theorem dispatchEvents_calls (p : Provider) (s : Window) (c : Bool) (es : List GEvent) :
    dispatchEvents p s c es = (s, c, eventsTrace p es) := by
  induction es generalizing s c with
  | nil => rfl
  | cons e es ih => simp [dispatchEvents, eventsTrace, dispatchEvent_calls, ih]

/-- The close flag before any poll is its initial value. -/
theorem closeFlagAt_zero (f0 : Bool) (sets : Nat → Bool) : closeFlagAt f0 sets 0 = f0 := by
  simp [closeFlagAt]

/-- The close flag after poll `k` is its value before poll `k`, or-ed with
whether the provider set it during poll `k`. -/
theorem closeFlagAt_succ (f0 : Bool) (sets : Nat → Bool) (k : Nat) :
    closeFlagAt f0 sets (k + 1) = (closeFlagAt f0 sets k || sets k) := by
  simp [closeFlagAt, List.range_succ, Bool.or_assoc]

set_option maxRecDepth 4000 in
/-- Unrolling of `mainLoop` from check number `k`: if the close flag is
false at the `m` checks `k, …, k+m-1` and true at check `k+m`, the loop
performs exactly the polls `k, …, k+m-1`, dispatching each poll's pending
events, and then returns. -/
theorem mainLoop_go (p : Provider) (sets : Nat → Bool) (events : Nat → List GEvent)
    (s : Window) (f0 : Bool) :
    ∀ m k fuel, m < fuel →
      (∀ j, j < m → closeFlagAt f0 sets (k + j) = false) →
      closeFlagAt f0 sets (k + m) = true →
      Window.mainLoop p sets events fuel s (closeFlagAt f0 sets k) k =
        some (s, ((List.range m).map (fun j =>
          ECall.glfwWindowShouldClose :: ECall.glfwPollEvents ::
            eventsTrace p (events (k + j)))).flatten ++ [ECall.glfwWindowShouldClose]) := by
  intro m
  induction m with
  | zero =>
    intro k fuel hfuel _ htrue
    match fuel, hfuel with
    | fuel + 1, _ =>
      simp only [Nat.add_zero] at htrue
      simp [Window.mainLoop, htrue]
  | succ m ih =>
    intro k fuel hfuel hfalse htrue
    match fuel, hfuel with
    | fuel + 1, hfuel =>
      have hk0 : closeFlagAt f0 sets k = false := by
        simpa using hfalse 0 (Nat.succ_pos m)
      have hnext : sets k = closeFlagAt f0 sets (k + 1) := by
        rw [closeFlagAt_succ, hk0, Bool.false_or]
      have ihk := ih (k + 1) fuel (Nat.lt_of_succ_lt_succ hfuel)
        (fun j hj => by
          have h2 := hfalse (j + 1) (Nat.succ_lt_succ hj)
          have h3 : k + (j + 1) = k + 1 + j := by omega
          rwa [h3] at h2)
        (by
          have h3 : k + (m + 1) = k + 1 + m := by omega
          rwa [h3] at htrue)
      simp only [Window.mainLoop, hk0, if_neg (by simp : ¬ (false = true)),
        dispatchEvents_calls, Bool.false_or, hnext, ihk]
      rw [List.range_succ_eq_map, List.map_cons, List.map_map, List.flatten_cons]
      have hcong : ((fun j => ECall.glfwWindowShouldClose :: ECall.glfwPollEvents ::
            eventsTrace p (events (k + j))) ∘ Nat.succ) =
          (fun j => ECall.glfwWindowShouldClose :: ECall.glfwPollEvents ::
            eventsTrace p (events (k + 1 + j))) := by
        funext j
        have h4 : k + Nat.succ j = k + 1 + j := by omega
        simp [Function.comp, h4]
      rw [hcong]
      simp

/-- If the close flag is false at every check the fuel allows, the loop
does not return within that fuel. -/
theorem mainLoop_stays (p : Provider) (sets : Nat → Bool) (events : Nat → List GEvent)
    (s : Window) (f0 : Bool) :
    ∀ fuel k, (∀ j, j < fuel → closeFlagAt f0 sets (k + j) = false) →
      Window.mainLoop p sets events fuel s (closeFlagAt f0 sets k) k = none := by
  intro fuel
  induction fuel with
  | zero => intro k _; rfl
  | succ fuel ih =>
    intro k hfalse
    have hk0 : closeFlagAt f0 sets k = false := by
      simpa using hfalse 0 (Nat.succ_pos _)
    have hnext : sets k = closeFlagAt f0 sets (k + 1) := by
      rw [closeFlagAt_succ, hk0, Bool.false_or]
    have ihk := ih (k + 1) (fun j hj => by
      have h2 := hfalse (j + 1) (Nat.succ_lt_succ hj)
      have h3 : k + (j + 1) = k + 1 + j := by omega
      rwa [h3] at h2)
    simp only [Window.mainLoop, hk0, if_neg (by simp : ¬ (false = true)),
      dispatchEvents_calls, Bool.false_or, hnext, ihk]

/-- Claim C7: if the provider close flag first becomes true at check `n`,
then (given enough fuel) `mainLoop` performs exactly the polls `0, …, n-1`
— dispatching, in order, every event pending at each of those polls,
including the poll during which the flag became true — and returns right
after the check that observes the flag; with fuel not exceeding `n` checks
it has not yet returned, i.e. while the flag stays false the loop keeps
polling. -/
theorem mainLoop_returns_at_first_close (p : Provider) (sets : Nat → Bool)
    (events : Nat → List GEvent) (s : Window) (f0 : Bool) (n fuel : Nat)
    (hn : closeFlagAt f0 sets n = true)
    (hbefore : ∀ k, k < n → closeFlagAt f0 sets k = false)
    (hfuel : n < fuel) :
    Window.mainLoop p sets events fuel s f0 0 =
      some (s, ((List.range n).map (fun j =>
        ECall.glfwWindowShouldClose :: ECall.glfwPollEvents ::
          eventsTrace p (events j))).flatten ++ [ECall.glfwWindowShouldClose]) ∧
    (∀ fuel2, fuel2 ≤ n → Window.mainLoop p sets events fuel2 s f0 0 = none) := by
  constructor
  · have h := mainLoop_go p sets events s f0 n 0 fuel hfuel
      (fun j hj => by simpa using hbefore j hj) (by simpa using hn)
    simpa [closeFlagAt_zero] using h
  · intro fuel2 hf2
    have h := mainLoop_stays p sets events s f0 fuel2 0 (fun j hj => by
      simpa using hbefore j (lt_of_lt_of_le hj hf2))
    simpa [closeFlagAt_zero] using h

/-- Witness for C7: the provider sets the close flag during poll 0; with
fuel 3 the loop performs exactly one poll and returns, and with fuel 1 it
has not yet returned. -/
theorem mainLoop_returns_at_first_close_witness :
    closeFlagAt false (fun k => k == 0) 1 = true ∧
    (Window.mainLoop pOk (fun k => k == 0) (fun _ => ([] : List GEvent)) 3 {} false 0 =
      some ({}, [ECall.glfwWindowShouldClose, ECall.glfwPollEvents, ECall.glfwWindowShouldClose]) ∧
     (∀ fuel2, fuel2 ≤ 1 →
        Window.mainLoop pOk (fun k => k == 0) (fun _ => ([] : List GEvent)) fuel2 {} false 0 = none)) :=
  ⟨by decide,
   mainLoop_returns_at_first_close pOk (fun k => k == 0) (fun _ => ([] : List GEvent)) {} false 1 3
     (by decide) (by decide) (by decide)⟩
